import Mathlib

/-!
# Verification of the gravity installer controller and cluster-config CLI

Shallow embedding of `lib/install/install.go` and
`tool/gravity/cli/clusterconfig.go` from the gravity repository, together
with proofs about the behaviours the specification describes: the
execute-token semaphore, the `Run` teardown dispatch, the stop/abort
teardown sequences, the stopper/aborter registries, error propagation in
`ExecuteOperation` and `CompleteOperationAndWait`, and the cluster-config
update flow (validation, manual mode, operation creation).

Go `error` values are modelled by `Option Err`; `trace.Wrap` preserves the
error classification (it only decorates with a stack trace), so it is the
identity on `Err` and `Option.map traceWrap` on nullable errors.
`trace.NewAggregate` collects a list of errors, returning `nil` (here
`none`) when the list is empty.
-/

namespace Gravity

/-- Classification of an error, mirroring the `trace` predicate family
(`trace.IsNotFound`, `trace.IsAlreadyExists`, ...) and the installer's
abort classification (`installpb.IsAbortedErr`). -/
inductive ErrKind where
  | aborted
  | notFound
  | alreadyExists
  | notImplemented
  | preconditionFailed
  | badParameter
  | internal
  deriving DecidableEq, Repr

/-- A single (non-aggregate) Go error: a classification plus a message. -/
structure SErr where
  kind : ErrKind
  msg : String
  deriving DecidableEq, Repr

/-- A Go error value: either a single error or a `trace` aggregate of
errors (as produced by `trace.NewAggregate`). -/
inductive Err where
  | one (e : SErr)
  | agg (es : List SErr)
  deriving DecidableEq, Repr

/-- The single errors carried by an error value. -/
def Err.errs : Err → List SErr
  | .one e => [e]
  | .agg es => es

/-- `trace.Wrap` on a non-nil error: decorates with a stack trace and
preserves the classification, hence the identity in this model. -/
def traceWrap (e : Err) : Err := e

/-- `trace.Wrap` on a nullable error: `trace.Wrap(nil) == nil`. -/
def traceWrapOpt (e : Option Err) : Option Err := e.map traceWrap

/-- `trace.NewAggregate(errs...)`: `nil` when no errors were collected,
otherwise an aggregate holding every collected error. -/
def NewAggregate (es : List Err) : Option Err :=
  if es.isEmpty then none else some (Err.agg (es.flatMap Err.errs))

/-- `trace.IsNotFound`: true exactly for a single not-found error. -/
def IsNotFound : Err → Bool
  | .one e => e.kind = ErrKind.notFound
  | .agg _ => false

/-- `trace.IsAlreadyExists`: true exactly for a single already-exists
error. -/
def IsAlreadyExists : Err → Bool
  | .one e => e.kind = ErrKind.alreadyExists
  | .agg _ => false

/-- `installpb.IsAbortedErr` on a non-nil error: true when the error (or
any error inside an aggregate) is classified `aborted`. -/
def Err.isAborted : Err → Bool
  | .one e => e.kind = ErrKind.aborted
  | .agg es => es.any fun e => e.kind = ErrKind.aborted

/-- `installpb.IsAbortedErr` on a nullable error: `nil` is not aborted. -/
def IsAbortedErr : Option Err → Bool
  | none => false
  | some e => e.isAborted

/-! ## `Installer.Run` (install.go lines 81-102)

`Run` blocks in a `select` on three channels: the controller server
terminating (`errC`), the local agent terminating (`agentErrC`), and the
operation-done channel (`doneC`).  The embedding takes the event that
fires as input and returns the value `Run` returns, together with which
teardown path the deferred handler takes. -/

/-- The event that makes `Installer.Run`'s `select` return. -/
inductive RunEvent where
  | serverExit (e : Option Err)
  | agentExit (e : Option Err)
  | operationDone
  deriving DecidableEq, Repr

/-- Which teardown path the deferred handler in `Run` takes. -/
inductive Teardown where
  | stopPath
  | abortPath
  deriving DecidableEq, Repr

/-- The value `Run` returns for a given wake-up event: the wrapped channel
error for the two error channels, `nil` for the done channel. -/
def runReturnValue : RunEvent → Option Err
  | .serverExit e => traceWrapOpt e
  | .agentExit e => traceWrapOpt e
  | .operationDone => none

/-- `Installer.Run`: returns the error for the event that fired, and the
deferred handler aborts when the returned error is abort-class, otherwise
stops. -/
def InstallerRun (ev : RunEvent) : Option Err × Teardown :=
  let err := runReturnValue ev
  (err, if IsAbortedErr err then Teardown.abortPath else Teardown.stopPath)

/-! ## `Installer.ExecuteOperation` and completion (install.go 167-208)

`ExecuteOperation` is a straight-line function of the results of its four
sub-calls (`initOperationPlan`, `NewFSM`, `ExecutePlan`, `Complete`); the
embedding takes those results as input and returns the trace of stages
reached together with the returned error. -/

/-- The stages `ExecuteOperation` can reach. -/
inductive ExecOpAction where
  | initPlan
  | newFSM
  | executePlan
  | completeOp
  deriving DecidableEq, Repr

/-- Results of the sub-calls made by `ExecuteOperation`. -/
structure ExecOpInput where
  initPlanResult : Option Err
  newFSMResult : Option Err
  executePlanResult : Option Err
  completeResult : Option Err
  deriving DecidableEq, Repr

/-- The tail of `ExecuteOperation` after the init-plan stage: build the
FSM, execute the plan, then complete; a `Complete` failure only replaces
the returned error when plan execution succeeded (`if err == nil { err =
completeErr }`). -/
def executeOperationRest (inp : ExecOpInput) : List ExecOpAction × Option Err :=
  match inp.newFSMResult with
  | some e => ([ExecOpAction.newFSM], some (traceWrap e))
  | none =>
    let err := inp.executePlanResult
    let err :=
      match inp.completeResult with
      | some completeErr => match err with
        | none => some completeErr
        | some e => some e
      | none => err
    ([ExecOpAction.newFSM, ExecOpAction.executePlan, ExecOpAction.completeOp],
      traceWrapOpt err)

/-- `Installer.ExecuteOperation`: returns early only when
`initOperationPlan` fails with an error that is not already-exists;
otherwise proceeds through `executeOperationRest`. -/
def ExecuteOperation (inp : ExecOpInput) : List ExecOpAction × Option Err :=
  match inp.initPlanResult with
  | some e =>
    if IsAlreadyExists e then
      let rest := executeOperationRest inp
      (ExecOpAction.initPlan :: rest.1, rest.2)
    else ([ExecOpAction.initPlan], some (traceWrap e))
  | none =>
    let rest := executeOperationRest inp
    (ExecOpAction.initPlan :: rest.1, rest.2)

/-- `Installer.CompleteOperationAndWait`: collects the non-nil results of
`completeOperation` and `wait` and returns their aggregate. -/
def CompleteOperationAndWait (completeResult waitResult : Option Err) : Option Err :=
  NewAggregate (completeResult.toList ++ waitResult.toList)

/-! ## Teardown registries and the stop/abort paths (install.go 323-401, 475-481)

A registered handler (`signals.Stopper`) is modelled by its name and the
error its `Stop` method returns.  `addStopper`/`addAborter` append to the
corresponding slice, so the slice order is registration order.  Teardown
steps are recorded in a trace of `Action`s. -/

/-- One observable step of the stop/abort paths. -/
inductive Action where
  | cancelCtx
  | agentStop
  | handlerRun (name : String)
  | processShutdown
  | serverStop
  deriving DecidableEq, Repr

/-- A registered teardown handler: identified by name, returning `result`
from its `Stop` method. -/
structure Handler where
  name : String
  result : Option Err
  deriving DecidableEq, Repr

/-- The shared loop shape of `stopStoppers` and of the aborter loop in
`abortWithContext`: a `for ... range` over the handler slice that calls
`c.Stop(ctx)` on each handler and appends any non-nil error — run each
handler in slice order, collecting the non-nil errors in that order. -/
def runHandlerLoop : List Handler → List Action × List Err
  | [] => ([], [])
  | h :: rest =>
    let tail := runHandlerLoop rest
    (Action.handlerRun h.name :: tail.1,
      match h.result with
      | some e => e :: tail.2
      | none => tail.2)

/-- `Installer.stopStoppers`: run every registered stopper in slice order
and return the aggregate of the collected errors. -/
def stopStoppers (stoppers : List Handler) : List Action × Option Err :=
  let l := runHandlerLoop stoppers
  (l.1, NewAggregate l.2)

/-- `Installer.stopWithContext`: cancel the internal context, stop the
local agent when one is configured, run the stoppers, shut down the
process, stop the server; returns the stoppers' aggregate error. -/
def stopWithContext (hasAgent : Bool) (stoppers : List Handler) :
    List Action × Option Err :=
  let s := stopStoppers stoppers
  (Action.cancelCtx :: ((if hasAgent then [Action.agentStop] else []) ++
    s.1 ++ [Action.processShutdown, Action.serverStop]),
    traceWrapOpt s.2)

/-- `Installer.abortWithContext`: cancel the internal context, run the
aborters in slice order collecting errors, shut down the process, stop
the server; returns the aborters' aggregate error. -/
def abortWithContext (aborters : List Handler) : List Action × Option Err :=
  let l := runHandlerLoop aborters
  (Action.cancelCtx :: (l.1 ++ [Action.processShutdown, Action.serverStop]),
    NewAggregate l.2)

/-! ## Cluster-config update CLI (clusterconfig.go)

`validateClusterConfig` queries the operator, validates the requested
configuration against the existing one, finds the local node among the
cluster servers, and rejects service/pod CIDR ranges that contain the
node's advertise IP.  `updateConfig` runs that validation before the
confirmation prompt and before the updater (and with it the operation) is
created. -/

/-- An IPv4 address: its textual form and its 32-bit numeric value. -/
structure IPAddr where
  raw : String
  addr : Nat
  deriving DecidableEq, Repr

/-- A CIDR range: its textual form, network base address and prefix
length. -/
structure CIDR where
  raw : String
  base : Nat
  bits : Nat
  deriving DecidableEq, Repr

/-- Whether the range contains the address: the two agree on the top
`bits` bits of their 32-bit values. -/
def CIDR.containsIP (c : CIDR) (ip : IPAddr) : Bool :=
  ip.addr % 2 ^ 32 / 2 ^ (32 - c.bits) = c.base % 2 ^ 32 / 2 ^ (32 - c.bits)

/-- Modelled from the spec: `validate.NetworkOverlap(ip, cidr, message)`
is not among the provided sources; per the spec it rejects a request
whose CIDR range contains the advertise IP, returning a classified
(precondition-failed) error carrying the supplied message, and accepts
otherwise. -/
def NetworkOverlap (ip : IPAddr) (cidr : CIDR) (message : String) : Option Err :=
  if cidr.containsIP ip then
    some (Err.one ⟨ErrKind.preconditionFailed, message⟩)
  else none

/-- The message built for a service-CIDR conflict (clusterconfig.go
296-297). -/
def serviceConflictMessage (ip cidr : String) : String :=
  "The advertise address " ++ ip ++
    " conflicts with the global service network CIDR range " ++ cidr ++
    ". Please specify a different service CIDR."

/-- The message built for a pod-CIDR conflict (clusterconfig.go 304-305). -/
def podConflictMessage (ip cidr : String) : String :=
  "The advertise address " ++ ip ++
    " conflicts with the global pod network CIDR range " ++ cidr ++
    ". Please specify a different pod CIDR."

/-- The requested configuration's global section: `none` models an empty
CIDR string, for which the corresponding check is skipped. -/
structure GlobalConfig where
  serviceCIDR : Option CIDR
  podCIDR : Option CIDR
  deriving DecidableEq, Repr

/-- Results of the queries `validateClusterConfig` makes, plus the
requested configuration.  `localServer` is the advertise IP of the local
node found by `findLocalServer` (`none` when the lookup fails). -/
structure ClusterConfigInput where
  siteOperatorResult : Option Err
  getLocalSiteResult : Option Err
  getClusterConfigResult : Option Err
  clusterConfigValidation : Option Err
  localServer : Option IPAddr
  globalConfig : GlobalConfig
  deriving DecidableEq, Repr

/-- The service- and pod-CIDR overlap checks at the end of
`validateClusterConfig`: each runs only when its CIDR string is
non-empty, the service check first. -/
def cidrChecks (ip : IPAddr) (g : GlobalConfig) : Option Err :=
  match g.serviceCIDR with
  | some c =>
    match NetworkOverlap ip c (serviceConflictMessage ip.raw c.raw) with
    | some e => some (traceWrap e)
    | none =>
      match g.podCIDR with
      | some c2 =>
        traceWrapOpt (NetworkOverlap ip c2 (podConflictMessage ip.raw c2.raw))
      | none => none
  | none =>
    match g.podCIDR with
    | some c2 =>
      traceWrapOpt (NetworkOverlap ip c2 (podConflictMessage ip.raw c2.raw))
    | none => none

/-- `validateClusterConfig` (clusterconfig.go 271-312). -/
def validateClusterConfig (inp : ClusterConfigInput) : Option Err :=
  match inp.siteOperatorResult with
  | some e => some (traceWrap e)
  | none =>
  match inp.getLocalSiteResult with
  | some e => some (traceWrap e)
  | none =>
  match inp.getClusterConfigResult with
  | some e => some (traceWrap e)
  | none =>
  match inp.clusterConfigValidation with
  | some e => some (traceWrap e)
  | none =>
  match inp.localServer with
  | none =>
    some (Err.one ⟨ErrKind.notFound,
      "unable to find local node among cluster state servers"⟩)
  | some ip => cidrChecks ip inp.globalConfig

/-- One observable step of `updateConfig`. -/
inductive CfgAction where
  | validateCfg
  | printConfirmBanner (manual : Bool)
  | confirmPrompt
  | printCancelled
  | createUpdater
  | runUpdater
  | printManualBanner
  deriving DecidableEq, Repr

/-- Results of the calls `updateConfig` makes after validation:
`confirmResult` is the outcome of the confirmation prompt,
`newUpdaterResult` of `newConfigUpdater` (which creates the operation and
its plan), `runResult` of `updater.Run`. -/
structure UpdateConfigInput where
  validation : ClusterConfigInput
  confirmResult : Except Err Bool
  newUpdaterResult : Option Err
  runResult : Option Err
  deriving Repr

/-- The tail of `updateConfig` after the confirmation block: create the
updater; in manual mode print the manual-operation banner and return
`nil` without running, otherwise run the updater. -/
def updateConfigAfterConfirm (inp : UpdateConfigInput) (manual : Bool)
    (tr : List CfgAction) : List CfgAction × Option Err :=
  match inp.newUpdaterResult with
  | some e => (tr, some (traceWrap e))
  | none =>
    let tr := tr ++ [CfgAction.createUpdater]
    if manual then
      (tr ++ [CfgAction.printManualBanner], none)
    else
      (tr ++ [CfgAction.runUpdater], traceWrapOpt inp.runResult)

/-- `updateConfig` (clusterconfig.go 43-73): validate first; when not
pre-confirmed, print the banner and prompt, returning `nil` on refusal;
then create the updater and either run it or, in manual mode, print the
manual-operation banner and return `nil`. -/
def updateConfig (inp : UpdateConfigInput) (manual confirmed : Bool) :
    List CfgAction × Option Err :=
  match validateClusterConfig inp.validation with
  | some e => ([], some (traceWrap e))
  | none =>
    let tr := [CfgAction.validateCfg]
    if confirmed then
      updateConfigAfterConfirm inp manual tr
    else
      let tr := tr ++ [CfgAction.printConfirmBanner manual, CfgAction.confirmPrompt]
      match inp.confirmResult with
      | .error e => (tr, some (traceWrap e))
      | .ok false => (tr ++ [CfgAction.printCancelled], none)
      | .ok true => updateConfigAfterConfirm inp manual tr

/-! ## The `configInitializer` hooks (clusterconfig.go 191-264) -/

/-- Opaque stand-in for `localenv.LocalEnvironment`. -/
structure LocalEnvironment where
  envId : Nat
  deriving DecidableEq, Repr

/-- Opaque stand-in for `ops.Operator`. -/
structure Operator where
  operatorId : Nat
  deriving DecidableEq, Repr

/-- Opaque stand-in for `ops.Site`. -/
structure Site where
  siteId : Nat
  deriving DecidableEq, Repr

/-- `configInitializer.validatePreconditions`: the body is a bare
`return nil`. -/
def configInitializer.validatePreconditions (_ : LocalEnvironment)
    (_ : Operator) (_ : Site) : Option Err :=
  none

/-- `ops.SiteOperationKey`. -/
structure SiteOperationKey where
  accountID : String
  siteDomain : String
  operationID : String
  deriving DecidableEq, Repr

/-- The remediation hint attached to the not-implemented error in
`configInitializer.newOperation`. -/
def notImplementedHint : String :=
  "cluster operator does not implement the API required for updating configuration. " ++
    "Please make sure you\x27re running the command on a compatible cluster."

/-- `configInitializer.newOperation`, as a function of the result of
`operator.CreateUpdateConfigOperation`: a not-found failure becomes a
not-implemented error with a remediation hint, any other failure is
returned wrapped, success returns the key. -/
def configInitializer.newOperation (createResult : Except Err SiteOperationKey) :
    Except Err SiteOperationKey :=
  match createResult with
  | .ok key => .ok key
  | .error e =>
    if IsNotFound e then
      .error (Err.one ⟨ErrKind.notImplemented, notImplementedHint⟩)
    else
      .error (traceWrap e)

/-! ## The execute-token semaphore (install.go 239-251, 502-511)

`Installer.Execute` begins with `waitForExecuteToken(ctx)` — a `select`
that either sends into the one-slot channel `executeSema` (acquiring the
token) or returns when the caller's context is cancelled — and defers
`releaseExecuteToken`, which receives from the channel.  Two concurrent
`Execute` calls are modelled as a transition system: each call is at one
of four program points, the channel either holds the token or not, and
each call's context is either cancelled or not (fixed for the run). -/

/-- Program points of one `Execute` call. -/
inductive TokenPC where
  | atWait
  | atWork
  | atRelease
  | finished
  deriving DecidableEq, Repr

/-- State of two concurrent `Execute` calls: whether `executeSema` holds
the token, each call's program point, and whether each call's context is
cancelled. -/
structure TokenSys where
  sema : Bool
  pc1 : TokenPC
  pc2 : TokenPC
  cancelled1 : Bool
  cancelled2 : Bool
  deriving DecidableEq, Repr

/-- Interleaved small-step semantics of the two `Execute` calls.
`acquire` is the send branch of the `select` in `waitForExecuteToken`
(enabled when the channel has room), `cancelSkip` its `ctx.Done()` branch
(enabled when that call's context is cancelled; the token is NOT
acquired and `Execute` proceeds to its phase work), `finishWork` the end
of the phase-work section, and `release` the deferred
`releaseExecuteToken` (a receive, enabled when the channel holds a
token). -/
inductive TokenStep : TokenSys → TokenSys → Prop where
  | acquire1 (s : TokenSys) : s.pc1 = TokenPC.atWait → s.sema = false →
      TokenStep s { s with sema := true, pc1 := TokenPC.atWork }
  | cancelSkip1 (s : TokenSys) : s.pc1 = TokenPC.atWait → s.cancelled1 = true →
      TokenStep s { s with pc1 := TokenPC.atWork }
  | finishWork1 (s : TokenSys) : s.pc1 = TokenPC.atWork →
      TokenStep s { s with pc1 := TokenPC.atRelease }
  | release1 (s : TokenSys) : s.pc1 = TokenPC.atRelease → s.sema = true →
      TokenStep s { s with sema := false, pc1 := TokenPC.finished }
  | acquire2 (s : TokenSys) : s.pc2 = TokenPC.atWait → s.sema = false →
      TokenStep s { s with sema := true, pc2 := TokenPC.atWork }
  | cancelSkip2 (s : TokenSys) : s.pc2 = TokenPC.atWait → s.cancelled2 = true →
      TokenStep s { s with pc2 := TokenPC.atWork }
  | finishWork2 (s : TokenSys) : s.pc2 = TokenPC.atWork →
      TokenStep s { s with pc2 := TokenPC.atRelease }
  | release2 (s : TokenSys) : s.pc2 = TokenPC.atRelease → s.sema = true →
      TokenStep s { s with sema := false, pc2 := TokenPC.finished }

/-- Initial state: the channel is empty, both calls are about to wait,
with the given cancellation statuses. -/
def tokenInit (c1 c2 : Bool) : TokenSys :=
  { sema := false, pc1 := TokenPC.atWait, pc2 := TokenPC.atWait,
    cancelled1 := c1, cancelled2 := c2 }

/-- Reachability in the interleaved semantics. -/
def TokenReach : TokenSys → TokenSys → Prop :=
  Relation.ReflTransGen TokenStep

/-- Both calls being inside their phase-work sections at once — what the
execution token is meant to exclude. -/
def overlapped (s : TokenSys) : Prop :=
  s.pc1 = TokenPC.atWork ∧ s.pc2 = TokenPC.atWork

/-! ## Helper notions and lemmas -/

/-- `needle` occurs verbatim inside `hay`. -/
def strMentions (hay needle : String) : Prop :=
  ∃ a b, hay = a ++ needle ++ b

/-- The handler loop visits every handler in slice (registration) order
and collects exactly the non-nil handler errors, in that order. -/
theorem runHandlerLoop_spec (hs : List Handler) :
    runHandlerLoop hs =
      (hs.map fun h => Action.handlerRun h.name, hs.filterMap Handler.result) := by
  induction hs with
  | nil => rfl
  | cons h rest ih =>
    simp only [runHandlerLoop, ih, List.map_cons, List.filterMap_cons]
    cases h.result <;> rfl

/-! ## The claims -/

/-- C2: `Installer.Run(listener)` returns exactly when the server
terminates, the local agent terminates, or the operation's done channel
closes — the three `RunEvent`s — returning the wrapped channel error for
the first two and `nil` for the third; and on every return path the
deferred handler takes the abort path exactly when the returned error is
abort-class (`IsAbortedErr`) and the stop path otherwise. -/
theorem C2_run_teardown_dispatch :
    (∀ ev : RunEvent,
      ((InstallerRun ev).2 = Teardown.abortPath ↔
        IsAbortedErr (InstallerRun ev).1 = true) ∧
      ((InstallerRun ev).2 = Teardown.stopPath ↔
        IsAbortedErr (InstallerRun ev).1 = false)) ∧
    (∀ e, (InstallerRun (RunEvent.serverExit e)).1 = traceWrapOpt e) ∧
    (∀ e, (InstallerRun (RunEvent.agentExit e)).1 = traceWrapOpt e) ∧
    (InstallerRun RunEvent.operationDone).1 = none := by
  refine ⟨fun ev => ?_, fun e => rfl, fun e => rfl, rfl⟩
  simp only [InstallerRun]
  by_cases h : IsAbortedErr (runReturnValue ev) = true <;> simp [h]

/-- C3: the stop path performs, in order: cancel the internal context,
stop the local agent, run the registered stoppers, shut down the upstream
process, stop the controller server; the abort path performs, in order:
cancel the internal context, run the registered aborters, shut down the
upstream process, stop the controller server. -/
theorem C3_teardown_order (stoppers aborters : List Handler) :
    (stopWithContext true stoppers).1 =
      [Action.cancelCtx, Action.agentStop] ++
        (stoppers.map fun h => Action.handlerRun h.name) ++
        [Action.processShutdown, Action.serverStop] ∧
    (abortWithContext aborters).1 =
      [Action.cancelCtx] ++
        (aborters.map fun h => Action.handlerRun h.name) ++
        [Action.processShutdown, Action.serverStop] := by
  constructor <;>
    simp [stopWithContext, abortWithContext, stopStoppers, runHandlerLoop_spec]

/-- C4 counterexample: with stoppers registered in the order
`first, second`, the stop registry invokes them as `first, second` —
registration order, not the LIFO order `second, first` the claim states
(and likewise for aborters). -/
theorem C4_lifo_counterexample :
    (stopStoppers [⟨"first", none⟩, ⟨"second", none⟩]).1 =
        [Action.handlerRun "first", Action.handlerRun "second"] ∧
    (stopStoppers [⟨"first", none⟩, ⟨"second", none⟩]).1 ≠
        [Action.handlerRun "second", Action.handlerRun "first"] ∧
    (abortWithContext [⟨"first", none⟩, ⟨"second", none⟩]).1 =
        [Action.cancelCtx, Action.handlerRun "first", Action.handlerRun "second",
          Action.processShutdown, Action.serverStop] := by
  refine ⟨rfl, by decide, rfl⟩

/-- C4 (amended): running the stopper registry and the aborter registry
each invokes the handlers in registration (FIFO) order, invokes every
handler even when earlier ones fail, and returns the aggregate of all
handler errors. -/
theorem C4_registry_order_and_aggregation (stoppers aborters : List Handler) :
    (stopStoppers stoppers).1 = (stoppers.map fun h => Action.handlerRun h.name) ∧
    (stopStoppers stoppers).2 = NewAggregate (stoppers.filterMap Handler.result) ∧
    (abortWithContext aborters).1 =
      Action.cancelCtx :: ((aborters.map fun h => Action.handlerRun h.name) ++
        [Action.processShutdown, Action.serverStop]) ∧
    (abortWithContext aborters).2 = NewAggregate (aborters.filterMap Handler.result) := by
  refine ⟨?_, ?_, ?_, ?_⟩ <;>
    simp [stopStoppers, abortWithContext, runHandlerLoop_spec]

/-- The phase-execution error used in the C5 counterexample. -/
def planBoom : Err := Err.one ⟨ErrKind.internal, "plan failed"⟩

/-- The completion error used in the C5 counterexample. -/
def completeBoom : Err := Err.one ⟨ErrKind.internal, "complete failed"⟩

/-- C5 counterexample: when `ExecutePlan` fails with `planBoom` and the
subsequent `Complete` fails with `completeBoom`, `ExecuteOperation`
surfaces only `planBoom`: the returned error is not an aggregate and does
not carry the completion error, contradicting the claim that both errors
reach the caller. -/
theorem C5_complete_error_shadowed :
    (ExecuteOperation ⟨none, none, some planBoom, some completeBoom⟩).2 =
        some planBoom ∧
    SErr.mk ErrKind.internal "complete failed" ∉ planBoom.errs := by
  decide

/-- C5 (amended): in `ExecuteOperation`, a `Complete` failure is
surfaced only when plan execution succeeded; when `ExecutePlan` also
fails, only the plan error is returned (the completion error is merely
logged).  `CompleteOperationAndWait`, by contrast, aggregates its
completion and wait errors, losing neither. -/
theorem C5_error_propagation (e1 e2 : Err) :
    (ExecuteOperation ⟨none, none, some e1, some e2⟩).2 = some (traceWrap e1) ∧
    (ExecuteOperation ⟨none, none, none, some e2⟩).2 = some (traceWrap e2) ∧
    CompleteOperationAndWait (some e1) (some e2) =
      some (Err.agg (e1.errs ++ e2.errs)) := by
  refine ⟨rfl, rfl, ?_⟩
  simp [CompleteOperationAndWait, NewAggregate]

/-- C6: a requested configuration whose service CIDR — or, the service
check passing, whose pod CIDR — contains the local node's advertise IP is
rejected by `updateConfig` with a precondition-failed error whose message
names the conflicting CIDR range and the advertise IP, and with an empty
action trace: in particular the updater (and with it the operation) is
never created and nothing is run. -/
theorem C6_cidr_conflict_rejected (inp : UpdateConfigInput)
    (manual confirmed : Bool) (ip : IPAddr)
    (h1 : inp.validation.siteOperatorResult = none)
    (h2 : inp.validation.getLocalSiteResult = none)
    (h3 : inp.validation.getClusterConfigResult = none)
    (h4 : inp.validation.clusterConfigValidation = none)
    (h5 : inp.validation.localServer = some ip) :
    (∀ c, inp.validation.globalConfig.serviceCIDR = some c →
      c.containsIP ip = true →
      updateConfig inp manual confirmed =
        ([], some (Err.one ⟨ErrKind.preconditionFailed,
          serviceConflictMessage ip.raw c.raw⟩)) ∧
      strMentions (serviceConflictMessage ip.raw c.raw) ip.raw ∧
      strMentions (serviceConflictMessage ip.raw c.raw) c.raw ∧
      CfgAction.createUpdater ∉ (updateConfig inp manual confirmed).1 ∧
      CfgAction.runUpdater ∉ (updateConfig inp manual confirmed).1) ∧
    (∀ c, (inp.validation.globalConfig.serviceCIDR = none ∨
        ∃ c0, inp.validation.globalConfig.serviceCIDR = some c0 ∧
          c0.containsIP ip = false) →
      inp.validation.globalConfig.podCIDR = some c →
      c.containsIP ip = true →
      updateConfig inp manual confirmed =
        ([], some (Err.one ⟨ErrKind.preconditionFailed,
          podConflictMessage ip.raw c.raw⟩)) ∧
      strMentions (podConflictMessage ip.raw c.raw) ip.raw ∧
      strMentions (podConflictMessage ip.raw c.raw) c.raw ∧
      CfgAction.createUpdater ∉ (updateConfig inp manual confirmed).1 ∧
      CfgAction.runUpdater ∉ (updateConfig inp manual confirmed).1) := by
  constructor
  · intro c hc hin
    have hval : validateClusterConfig inp.validation =
        some (Err.one ⟨ErrKind.preconditionFailed,
          serviceConflictMessage ip.raw c.raw⟩) := by
      simp [validateClusterConfig, h1, h2, h3, h4, h5, cidrChecks, hc,
        NetworkOverlap, hin, traceWrap]
    have hupd : updateConfig inp manual confirmed =
        ([], some (Err.one ⟨ErrKind.preconditionFailed,
          serviceConflictMessage ip.raw c.raw⟩)) := by
      simp [updateConfig, hval, traceWrap]
    refine ⟨hupd, ?_, ?_, ?_, ?_⟩
    · exact ⟨"The advertise address ",
        " conflicts with the global service network CIDR range " ++ c.raw ++
          ". Please specify a different service CIDR.",
        by simp [serviceConflictMessage, String.append_assoc]⟩
    · exact ⟨"The advertise address " ++ ip.raw ++
          " conflicts with the global service network CIDR range ",
        ". Please specify a different service CIDR.",
        by simp [serviceConflictMessage, String.append_assoc]⟩
    · simp [hupd]
    · simp [hupd]
  · intro c hsvc hc hin
    have hchecks : cidrChecks ip inp.validation.globalConfig =
        some (Err.one ⟨ErrKind.preconditionFailed,
          podConflictMessage ip.raw c.raw⟩) := by
      rcases hsvc with hnone | ⟨c0, hc0, hno⟩
      · simp [cidrChecks, hnone, hc, NetworkOverlap, hin, traceWrapOpt, traceWrap]
      · simp [cidrChecks, hc0, hc, NetworkOverlap, hno, hin, traceWrapOpt, traceWrap]
    have hval : validateClusterConfig inp.validation =
        some (Err.one ⟨ErrKind.preconditionFailed,
          podConflictMessage ip.raw c.raw⟩) := by
      simp [validateClusterConfig, h1, h2, h3, h4, h5, hchecks]
    have hupd : updateConfig inp manual confirmed =
        ([], some (Err.one ⟨ErrKind.preconditionFailed,
          podConflictMessage ip.raw c.raw⟩)) := by
      simp [updateConfig, hval, traceWrap]
    refine ⟨hupd, ?_, ?_, ?_, ?_⟩
    · exact ⟨"The advertise address ",
        " conflicts with the global pod network CIDR range " ++ c.raw ++
          ". Please specify a different pod CIDR.",
        by simp [podConflictMessage, String.append_assoc]⟩
    · exact ⟨"The advertise address " ++ ip.raw ++
          " conflicts with the global pod network CIDR range ",
        ". Please specify a different pod CIDR.",
        by simp [podConflictMessage, String.append_assoc]⟩
    · simp [hupd]
    · simp [hupd]

/-- A service CIDR range 10.100.0.0/16 (numeric base 10*2^24 + 100*2^16)
that contains the advertise address 10.100.0.2 used in the C6 witness. -/
def conflictingCIDR : CIDR :=
  { raw := "10.100.0.0/16", base := 10 * 2 ^ 24 + 100 * 2 ^ 16, bits := 16 }

/-- The advertise address 10.100.0.2 used in the C6 witness. -/
def witnessIP : IPAddr :=
  { raw := "10.100.0.2", addr := 10 * 2 ^ 24 + 100 * 2 ^ 16 + 2 }

/-- C6 witness: the rejection at the concrete advertise address
10.100.0.2 and service CIDR 10.100.0.0/16. -/
theorem C6_cidr_conflict_rejected_witness :
    updateConfig
        { validation :=
            { siteOperatorResult := none, getLocalSiteResult := none,
              getClusterConfigResult := none, clusterConfigValidation := none,
              localServer := some witnessIP,
              globalConfig := { serviceCIDR := some conflictingCIDR, podCIDR := none } },
          confirmResult := Except.ok true, newUpdaterResult := none,
          runResult := none }
        false false =
      ([], some (Err.one ⟨ErrKind.preconditionFailed,
        serviceConflictMessage witnessIP.raw conflictingCIDR.raw⟩)) :=
  ((C6_cidr_conflict_rejected _ false false witnessIP rfl rfl rfl rfl rfl).1
    conflictingCIDR rfl (by decide)).1

/-- C7: a confirmed invocation of `updateConfig` in manual mode creates
the updater (wiring up the operation and its plan), prints the
manual-operation banner, and returns success without ever running the
plan. -/
theorem C7_manual_mode (inp : UpdateConfigInput)
    (hval : validateClusterConfig inp.validation = none)
    (hupd : inp.newUpdaterResult = none) :
    updateConfig inp true true =
      ([CfgAction.validateCfg, CfgAction.createUpdater,
        CfgAction.printManualBanner], none) ∧
    CfgAction.createUpdater ∈ (updateConfig inp true true).1 ∧
    CfgAction.runUpdater ∉ (updateConfig inp true true).1 := by
  have h : updateConfig inp true true =
      ([CfgAction.validateCfg, CfgAction.createUpdater,
        CfgAction.printManualBanner], none) := by
    simp [updateConfig, hval, updateConfigAfterConfirm, hupd]
  refine ⟨h, ?_, ?_⟩ <;> simp [h]

/-- C7 witness: manual mode at a concrete conflict-free input. -/
theorem C7_manual_mode_witness :
    updateConfig
        { validation :=
            { siteOperatorResult := none, getLocalSiteResult := none,
              getClusterConfigResult := none, clusterConfigValidation := none,
              localServer := some witnessIP,
              globalConfig := { serviceCIDR := none, podCIDR := none } },
          confirmResult := Except.ok true, newUpdaterResult := none,
          runResult := none }
        true true =
      ([CfgAction.validateCfg, CfgAction.createUpdater,
        CfgAction.printManualBanner], none) :=
  (C7_manual_mode _ (by decide) rfl).1

/-- C8: `ExecuteOperation` reaches the FSM-construction stage exactly
when `initOperationPlan` returned `nil` or an already-exists error — an
already-exists result is treated as success — and returns at the
init-plan stage, with the wrapped error, exactly on any other
initialization error; the plan executes whenever initialization passed
this test and the FSM was built. -/
theorem C8_already_exists_is_success (inp : ExecOpInput) :
    (ExecOpAction.newFSM ∈ (ExecuteOperation inp).1 ↔
      (inp.initPlanResult = none ∨
        ∃ e, inp.initPlanResult = some e ∧ IsAlreadyExists e = true)) ∧
    (∀ e, inp.initPlanResult = some e → IsAlreadyExists e = false →
      ExecuteOperation inp = ([ExecOpAction.initPlan], some (traceWrap e))) ∧
    (ExecOpAction.executePlan ∈ (ExecuteOperation inp).1 ↔
      ((inp.initPlanResult = none ∨
        ∃ e, inp.initPlanResult = some e ∧ IsAlreadyExists e = true) ∧
        inp.newFSMResult = none)) := by
  have hrest1 : ExecOpAction.newFSM ∈ (executeOperationRest inp).1 := by
    unfold executeOperationRest
    cases inp.newFSMResult <;> simp
  have hrest2 : ExecOpAction.executePlan ∈ (executeOperationRest inp).1 ↔
      inp.newFSMResult = none := by
    unfold executeOperationRest
    cases inp.newFSMResult <;> simp
  obtain ⟨init, hinit⟩ : ∃ v, inp.initPlanResult = v := ⟨_, rfl⟩
  cases init with
  | none =>
    refine ⟨?_, ?_, ?_⟩
    · simp [ExecuteOperation, hinit, hrest1]
    · intro e he
      rw [hinit] at he
      exact absurd he (by simp)
    · simp [ExecuteOperation, hinit, hrest2]
  | some e =>
    by_cases hae : IsAlreadyExists e = true
    · refine ⟨?_, ?_, ?_⟩
      · simp only [ExecuteOperation, hinit, hae, if_pos]
        simp [hrest1, hinit, hae]
      · intro e' he' hae'
        rw [hinit] at he'
        cases he'
        rw [hae] at hae'
        exact absurd hae' (by simp)
      · simp only [ExecuteOperation, hinit, hae, if_pos]
        simp [hrest2, hinit, hae]
    · have hae' : IsAlreadyExists e = false := by
        cases h : IsAlreadyExists e
        · rfl
        · exact absurd h hae
      refine ⟨?_, ?_, ?_⟩
      · simp [ExecuteOperation, hinit, hae', hinit]
      · intro e' he' _
        rw [hinit] at he'
        cases he'
        simp [ExecuteOperation, hinit, hae']
      · simp [ExecuteOperation, hinit, hae']

/-- C8 witness: with an already-exists init-plan result the plan still
executes; with a distinct internal error `ExecuteOperation` returns
early. -/
theorem C8_already_exists_is_success_witness :
    (ExecOpAction.executePlan ∈
      (ExecuteOperation ⟨some (Err.one ⟨ErrKind.alreadyExists, "plan exists"⟩),
        none, none, none⟩).1) ∧
    ExecuteOperation ⟨some (Err.one ⟨ErrKind.internal, "init failed"⟩),
        none, none, none⟩ =
      ([ExecOpAction.initPlan],
        some (traceWrap (Err.one ⟨ErrKind.internal, "init failed"⟩))) :=
  ⟨((C8_already_exists_is_success _).2.2).mpr
      (by exact ⟨Or.inr ⟨_, rfl, by decide⟩, rfl⟩),
    (C8_already_exists_is_success _).2.1 _ rfl (by decide)⟩

/-- C9: `configInitializer.newOperation` returns the not-implemented
error carrying the user-facing remediation hint exactly on a not-found
failure of `CreateUpdateConfigOperation`; any other failure is returned
wrapped as-is, and success returns the new operation key. -/
theorem C9_newOperation_cases :
    (∀ e : Err, IsNotFound e = true →
      configInitializer.newOperation (Except.error e) =
        Except.error (Err.one ⟨ErrKind.notImplemented, notImplementedHint⟩)) ∧
    (∀ e : Err, IsNotFound e = false →
      configInitializer.newOperation (Except.error e) =
        Except.error (traceWrap e)) ∧
    (∀ k : SiteOperationKey,
      configInitializer.newOperation (Except.ok k) = Except.ok k) := by
  refine ⟨fun e he => ?_, fun e he => ?_, fun k => rfl⟩ <;>
    simp [configInitializer.newOperation, he]

/-- C9 witness: the hint on a concrete not-found failure, pass-through on
a concrete access-denied-style failure. -/
theorem C9_newOperation_cases_witness :
    configInitializer.newOperation
        (Except.error (Err.one ⟨ErrKind.notFound, "no such endpoint"⟩)) =
      Except.error (Err.one ⟨ErrKind.notImplemented, notImplementedHint⟩) ∧
    configInitializer.newOperation
        (Except.error (Err.one ⟨ErrKind.internal, "backend down"⟩)) =
      Except.error (traceWrap (Err.one ⟨ErrKind.internal, "backend down"⟩)) :=
  ⟨C9_newOperation_cases.1 _ (by decide),
    C9_newOperation_cases.2.1 _ (by decide)⟩

/-- The tail of `updateConfig` only appends actions to the trace prefix
it is given: the head of its trace is the head of the prefix. -/
theorem updateConfigAfterConfirm_head (inp : UpdateConfigInput) (manual : Bool)
    (a : CfgAction) (tr : List CfgAction) :
    ((updateConfigAfterConfirm inp manual (a :: tr)).1).head? = some a := by
  unfold updateConfigAfterConfirm
  cases inp.newUpdaterResult with
  | some e => rfl
  | none => cases manual <;> simp

/-- C10: the cluster-config initializer's `validatePreconditions` hook
returns `nil` on every input; precondition checking for this flavor
happens in `validateClusterConfig`, which `updateConfig` runs before the
updater is created: whenever the trace reaches `createUpdater`,
validation has already succeeded and is the very first action of the
trace. -/
theorem C10_validatePreconditions_trivial :
    (∀ (env : LocalEnvironment) (op : Operator) (site : Site),
      configInitializer.validatePreconditions env op site = none) ∧
    (∀ (inp : UpdateConfigInput) (manual confirmed : Bool),
      CfgAction.createUpdater ∈ (updateConfig inp manual confirmed).1 →
        validateClusterConfig inp.validation = none ∧
        ((updateConfig inp manual confirmed).1).head? =
          some CfgAction.validateCfg) := by
  refine ⟨fun _ _ _ => rfl, fun inp manual confirmed hmem => ?_⟩
  cases hv : validateClusterConfig inp.validation with
  | some e =>
    unfold updateConfig at hmem
    rw [hv] at hmem
    simp at hmem
  | none =>
    unfold updateConfig
    rw [hv]
    refine ⟨rfl, ?_⟩
    by_cases hc : confirmed
    · simpa [hc] using
        updateConfigAfterConfirm_head inp manual CfgAction.validateCfg []
    · cases hcr : inp.confirmResult with
      | error e => simp [hc, hcr]
      | ok b =>
        cases b
        · simp [hc, hcr]
        · simpa [hc, hcr] using updateConfigAfterConfirm_head inp manual
            CfgAction.validateCfg
            [CfgAction.printConfirmBanner manual, CfgAction.confirmPrompt]

/-- A conflict-free `validateClusterConfig` input used by witnesses. -/
def okValidation : ClusterConfigInput :=
  { siteOperatorResult := none, getLocalSiteResult := none,
    getClusterConfigResult := none, clusterConfigValidation := none,
    localServer := some witnessIP,
    globalConfig := { serviceCIDR := none, podCIDR := none } }

/-- A fully successful `updateConfig` input used by witnesses. -/
def okUpdateInput : UpdateConfigInput :=
  { validation := okValidation, confirmResult := Except.ok true,
    newUpdaterResult := none, runResult := none }

/-- C10 witness: at a concrete conflict-free input the trace reaches
`createUpdater`, validation succeeded and heads the trace. -/
theorem C10_validatePreconditions_trivial_witness :
    validateClusterConfig okValidation = none ∧
    ((updateConfig okUpdateInput false true).1).head? =
      some CfgAction.validateCfg :=
  C10_validatePreconditions_trivial.2 okUpdateInput false true (by decide)

/-- How many tokens a call at this program point holds: a call between a
successful acquire and its release holds one. -/
def holdCount : TokenPC → Nat
  | .atWork => 1
  | .atRelease => 1
  | _ => 0

/-- The exclusion invariant of the uncancelled system: the held tokens
match the channel occupancy, and neither context is cancelled. -/
def tokenInvariant (s : TokenSys) : Prop :=
  holdCount s.pc1 + holdCount s.pc2 = (if s.sema then 1 else 0) ∧
  s.cancelled1 = false ∧ s.cancelled2 = false

/-- Every step of the uncancelled system preserves the exclusion
invariant (the cancel-skip steps are disabled). -/
theorem tokenInvariant_step {s t : TokenSys} (h : TokenStep s t)
    (hs : tokenInvariant s) : tokenInvariant t := by
  obtain ⟨hcount, hc1, hc2⟩ := hs
  cases h <;> simp_all [tokenInvariant, holdCount]

/-- Without cancellation the semaphore does ensure mutual exclusion: no
state reachable from the uncancelled initial state has both calls inside
their phase-work sections.  It is exactly the cancellation fall-through
that defeats the token. -/
theorem no_cancel_mutual_exclusion (s : TokenSys)
    (h : TokenReach (tokenInit false false) s) : ¬ overlapped s := by
  have hinv : tokenInvariant s := by
    induction h with
    | refl => exact ⟨by simp [tokenInit, holdCount], rfl, rfl⟩
    | tail _ hstep ih => exact tokenInvariant_step hstep ih
  rintro ⟨h1, h2⟩
  obtain ⟨hcount, -, -⟩ := hinv
  rw [h1, h2] at hcount
  cases hsema : s.sema <;> simp [hsema, holdCount] at hcount

/-- C1: the claim fails on the code.  From the initial state in which the
second caller's context is cancelled, the interleaved semantics reaches a
state in which both `Execute` calls are inside their phase-work sections
at once while the first call holds the token: the cancelled waiter falls
through `waitForExecuteToken` without acquiring, and `Execute` proceeds
into its phase work instead of returning. -/
theorem C1_cancelled_waiter_overlaps :
    ∃ s : TokenSys, TokenReach (tokenInit false true) s ∧ overlapped s ∧
      s.sema = true := by
  refine ⟨{ sema := true, pc1 := TokenPC.atWork, pc2 := TokenPC.atWork,
            cancelled1 := false, cancelled2 := true }, ?_, ⟨rfl, rfl⟩, rfl⟩
  have h1 : TokenStep (tokenInit false true)
      { sema := true, pc1 := TokenPC.atWork, pc2 := TokenPC.atWait,
        cancelled1 := false, cancelled2 := true } :=
    TokenStep.acquire1 (tokenInit false true) rfl rfl
  have h2 : TokenStep
      { sema := true, pc1 := TokenPC.atWork, pc2 := TokenPC.atWait,
        cancelled1 := false, cancelled2 := true }
      { sema := true, pc1 := TokenPC.atWork, pc2 := TokenPC.atWork,
        cancelled1 := false, cancelled2 := true } :=
    TokenStep.cancelSkip2 _ rfl rfl
  exact Relation.ReflTransGen.head h1 (Relation.ReflTransGen.single h2)

end Gravity
